import Mathlib

/-!
# Offline-resilience subsystem of the Ramadan Iftar Fund Tracker

A shallow embedding of the client-side offline subsystem:

* `offlineQueue` — the IndexedDB-backed mutation queue (`services/offlineQueue.ts`).
  The object store is modelled as a `List QueuedAction` kept in insertion order;
  IndexedDB's `add` rejects on a duplicate primary key (`keyPath: 'id'`), and
  `getAll` returns records in ascending key (id) order, which the queue then
  stably re-sorts by `timestamp` (JS `Array.prototype.sort` is stable).
* `dbService` — the API client (`services/dbService.ts`).  Network calls are
  modelled by oracle parameters (`none` = the call throws a NetworkError,
  `some r` = it resolves with `r`); the wall clock and UUID generator are
  explicit inputs.  The issued network calls are returned as a `List NetCall`.
* `workerHandlers` — the server POST handlers (`worker/src/handlers.ts`),
  which generate a fresh primary key with `crypto.randomUUID()`.
* `processOfflineQueue` / `refreshData` — the sync coordinator in `App.tsx`.
-/

set_option maxHeartbeats 1000000

deriving instance DecidableEq for Except

namespace IftarCore

/-! ## Data model (`types.ts`) -/

structure Donation where
  id : String
  userId : String
  donorName : String
  pledgedAmount : Int
  paidAmount : Int
  date : String
  year : Int
  notes : Option String
deriving DecidableEq, Repr

structure Expense where
  id : String
  userId : String
  description : String
  amount : Int
  category : String
  date : String
  year : Int
  quantity : Option Int
  unit : Option String
deriving DecidableEq, Repr

/-! ## Queue records (`services/offlineQueue.ts`) -/

inductive QueuedActionType
  | ADD_DONATION
  | ADD_EXPENSE
deriving DecidableEq, Repr

/-- The record payload stored in a queued action (`payload: any` in the
source; `dbService` only ever stores a full `Donation` or `Expense`). -/
inductive RecPayload
  | don (d : Donation)
  | exp (e : Expense)
deriving DecidableEq, Repr

/-- A queue payload as `enqueue` sees it: an untyped object with an optional
`id` property (`payload.id ?? crypto.randomUUID()`), plus the record body. -/
structure QPayload where
  idField : Option String
  body : RecPayload
deriving DecidableEq, Repr

/-- The payload `dbService` passes to `enqueue`: the whole record, whose `id`
property is the record's id. -/
def RecPayload.toQ : RecPayload → QPayload
  | .don d => ⟨some d.id, .don d⟩
  | .exp e => ⟨some e.id, .exp e⟩

structure QueuedAction where
  id : String
  type : QueuedActionType
  payload : QPayload
  timestamp : Nat
deriving DecidableEq, Repr

/-! ## API request/response shapes (`services/dbService.ts`, `worker/src/handlers.ts`) -/

/-- Body of `POST /api/donations` (`apiData` in `dbService.addDonation`):
note it carries no `id` and no `userId`. -/
structure DonationApiData where
  donorName : String
  pledgedAmount : Int
  paidAmount : Int
  date : String
  year : Int
  notes : Option String
deriving DecidableEq, Repr

/-- Body of `PUT /api/donations` (`apiData` in `dbService.updateDonation`). -/
structure DonationUpdateData where
  id : String
  donorName : String
  pledgedAmount : Int
  paidAmount : Int
  date : String
  year : Int
  notes : Option String
deriving DecidableEq, Repr

/-- Body of `POST /api/expenses` (`apiData` in `dbService.addExpense`). -/
structure ExpenseApiData where
  description : String
  amount : Int
  category : String
  date : String
  year : Int
  quantity : Option Int
  unit : Option String
deriving DecidableEq, Repr

/-- Body of `PUT /api/expenses` (`apiData` in `dbService.updateExpense`). -/
structure ExpenseUpdateData where
  id : String
  description : String
  amount : Int
  category : String
  date : String
  year : Int
  quantity : Option Int
  unit : Option String
deriving DecidableEq, Repr

/-- One network request issued by the client. -/
inductive NetCall
  | createDonation (body : DonationApiData)
  | createExpense (body : ExpenseApiData)
  | putDonation (body : DonationUpdateData)
  | putExpense (body : ExpenseUpdateData)
  | deleteDonation (id : String)
  | deleteExpense (id : String)
  | getDonations (year : Int)
  | getExpenses (year : Int)
deriving DecidableEq, Repr

/-- The error classes of the client (`OfflineError`, a rejected `apiCall`,
and an aborted IndexedDB transaction). -/
inductive DbErr
  | offlineError
  | networkError
  | constraintError
deriving DecidableEq, Repr

/-! ## Durable mutation queue (`services/offlineQueue.ts`)

The IndexedDB object store `actions` has `keyPath: 'id'`.  The model keeps the
stored records as a list in insertion order; all observations go through the
queue's operations.  `add` on an existing key raises a `ConstraintError`,
aborting the transaction, so `enqueue` rejects and writes nothing. -/

def storeHasId (store : List QueuedAction) (i : String) : Bool :=
  store.any (fun a => a.id == i)

/-- IndexedDB compares string keys code unit by code unit: lexicographic
order on the character sequences. -/
def charListLe : List Char → List Char → Bool
  | [], _ => true
  | _ :: _, [] => false
  | c :: cs, d :: ds =>
      if c < d then true
      else if d < c then false
      else charListLe cs ds

theorem charListLe_total : ∀ x y : List Char, charListLe x y = true ∨ charListLe y x = true
  | [], _ => Or.inl rfl
  | _ :: _, [] => Or.inr rfl
  | c :: cs, d :: ds => by
    rcases lt_trichotomy c d with h | h | h
    · left; simp [charListLe, h]
    · subst h
      rcases charListLe_total cs ds with ih | ih
      · left; simp [charListLe, lt_irrefl, ih]
      · right; simp [charListLe, lt_irrefl, ih]
    · right; simp [charListLe, h]

theorem charListLe_trans :
    ∀ {x y z : List Char}, charListLe x y = true → charListLe y z = true → charListLe x z = true
  | [], _, _, _, _ => rfl
  | _ :: _, [], _, hxy, _ => by simp [charListLe] at hxy
  | _ :: _, _ :: _, [], _, hyz => by simp [charListLe] at hyz
  | c :: cs, d :: ds, e :: es, hxy, hyz => by
    by_cases hcd : c < d <;> by_cases hde : d < e
    · simp [charListLe, lt_trans hcd hde]
    · have hed : e ≤ d := le_of_not_lt hde
      simp only [charListLe, if_pos hcd] at hxy ⊢
      by_cases hde' : e < d
      · simp [charListLe, if_neg (lt_asymm hde'), if_pos hde'] at hyz
      · have : d = e := le_antisymm (le_of_not_lt hde') (le_of_not_lt hde)
        subst this
        simp [charListLe, hcd]
    · have hdc : d ≤ c := le_of_not_lt hcd
      by_cases hdc' : d < c
      · simp [charListLe, if_neg (lt_asymm hdc'), if_pos hdc'] at hxy
      · have : c = d := le_antisymm (le_of_not_lt hdc') (le_of_not_lt hcd)
        subst this
        simp [charListLe, hde]
    · by_cases hdc' : d < c
      · simp [charListLe, if_neg (lt_asymm hdc'), if_pos hdc'] at hxy
      · have h1 : c = d := le_antisymm (le_of_not_lt hdc') (le_of_not_lt hcd)
        subst h1
        by_cases hed' : e < c
        · simp [charListLe, if_neg (lt_asymm hed'), if_pos hed'] at hyz
        · have h2 : c = e := le_antisymm (le_of_not_lt hed') (le_of_not_lt hde)
          subst h2
          simp only [charListLe, if_neg (lt_irrefl c)] at hxy hyz ⊢
          exact charListLe_trans hxy hyz

namespace offlineQueue

def enqueue (store : List QueuedAction) (ty : QueuedActionType) (payload : QPayload)
    (now : Nat) (freshUuid : String) : Except DbErr QueuedAction × List QueuedAction :=
  let action : QueuedAction :=
    { id := payload.idField.getD freshUuid, type := ty, payload := payload, timestamp := now }
  if storeHasId store action.id then (.error .constraintError, store)
  else (.ok action, store ++ [action])

/-- IndexedDB key order on queue records (`keyPath: 'id'`). -/
def idLe (a b : QueuedAction) : Prop := charListLe a.id.data b.id.data = true

/-- The comparator `(a, b) => a.timestamp - b.timestamp`. -/
def tsLe (a b : QueuedAction) : Prop := a.timestamp ≤ b.timestamp

instance : DecidableRel idLe :=
  fun a b => inferInstanceAs (Decidable (charListLe a.id.data b.id.data = true))
instance : DecidableRel tsLe := fun a b => inferInstanceAs (Decidable (a.timestamp ≤ b.timestamp))

instance : IsTotal QueuedAction idLe := ⟨fun a b => charListLe_total a.id.data b.id.data⟩
instance : IsTrans QueuedAction idLe := ⟨fun _ _ _ h h' => charListLe_trans h h'⟩
instance : IsTotal QueuedAction tsLe := ⟨fun a b => Nat.le_total a.timestamp b.timestamp⟩
instance : IsTrans QueuedAction tsLe := ⟨fun _ _ _ h h' => Nat.le_trans h h'⟩

/-- `getAll` resolves with the records in ascending key (id) order; the queue
then sorts them by `timestamp` with JS's stable sort. -/
def getAll (store : List QueuedAction) : List QueuedAction :=
  List.insertionSort tsLe (List.insertionSort idLe store)

/-- `IDBObjectStore.delete` succeeds whether or not the key is present. -/
def remove (store : List QueuedAction) (i : String) : List QueuedAction :=
  store.filter (fun a => a.id != i)

def count (store : List QueuedAction) : Nat := store.length

end offlineQueue

/-! ## Server handlers (`worker/src/handlers.ts`) -/

namespace workerHandlers

/-- JS `x || null` applied to an optional string: the empty string is falsy. -/
def jsStringOrNull : Option String → Option String
  | some "" => none
  | none => none
  | some s => some s

/-- A row of the `donations` table. -/
structure DonationRow where
  id : String
  user_id : String
  donor_name : String
  pledged_amount : Int
  paid_amount : Int
  date : String
  year : Int
  notes : Option String
deriving DecidableEq, Repr

/-- A row of the `expenses` table (quantity/unit columns are never written by
the POST handler). -/
structure ExpenseRow where
  id : String
  user_id : String
  description : String
  amount : Int
  category : String
  date : String
  year : Int
  quantity : Option Int
  unit : Option String
deriving DecidableEq, Repr

/-- Response to `POST /api/donations`: `{ id, ...body }` where `id` is a fresh
`crypto.randomUUID()` — the client-supplied body carries no id. -/
structure DonationPostResponse where
  id : String
  donorName : String
  pledgedAmount : Int
  paidAmount : Int
  date : String
  year : Int
  notes : Option String
deriving DecidableEq, Repr

structure ExpensePostResponse where
  id : String
  description : String
  amount : Int
  category : String
  date : String
  year : Int
  quantity : Option Int
  unit : Option String
deriving DecidableEq, Repr

/-- `handleDonations`, POST branch: generates a fresh id, inserts the row
under that id, and echoes `{ id, ...body }`. -/
def handleDonationsPost (userId : String) (body : DonationApiData) (freshId : String)
    (db : List DonationRow) : List DonationRow × DonationPostResponse :=
  (db ++ [{ id := freshId, user_id := userId, donor_name := body.donorName,
            pledged_amount := body.pledgedAmount, paid_amount := body.paidAmount,
            date := body.date, year := body.year, notes := jsStringOrNull body.notes }],
   { id := freshId, donorName := body.donorName, pledgedAmount := body.pledgedAmount,
     paidAmount := body.paidAmount, date := body.date, year := body.year,
     notes := body.notes })

/-- `handleExpenses`, POST branch. -/
def handleExpensesPost (userId : String) (body : ExpenseApiData) (freshId : String)
    (db : List ExpenseRow) : List ExpenseRow × ExpensePostResponse :=
  (db ++ [{ id := freshId, user_id := userId, description := body.description,
            amount := body.amount, category := body.category,
            date := body.date, year := body.year, quantity := none, unit := none }],
   { id := freshId, description := body.description, amount := body.amount,
     category := body.category, date := body.date, year := body.year,
     quantity := body.quantity, unit := body.unit })

end workerHandlers

open workerHandlers

/-! ## API client (`services/dbService.ts`)

Each operation takes the connectivity flag (`navigator.onLine`), the current
queue store, clock/UUID inputs, and a network oracle (`none` models the fetch
rejecting with a NetworkError).  It returns the operation's result, the queue
store afterwards, and the network calls issued. -/

/-- `dbService.addDonation` / `dbService.addExpense` resolve with either the
confirmed record (online path) or `{ ...record, _queued: true }`. -/
inductive AddOutcome (α : Type)
  | confirmed (rec : α)
  | queued (rec : α)
deriving DecidableEq, Repr

namespace dbService

def donationApiData (d : Donation) : DonationApiData :=
  { donorName := d.donorName, pledgedAmount := d.pledgedAmount, paidAmount := d.paidAmount,
    date := d.date, year := d.year, notes := d.notes }

def expenseApiData (e : Expense) : ExpenseApiData :=
  { description := e.description, amount := e.amount, category := e.category,
    date := e.date, year := e.year, quantity := e.quantity, unit := e.unit }

def donationUpdateData (d : Donation) : DonationUpdateData :=
  { id := d.id, donorName := d.donorName, pledgedAmount := d.pledgedAmount,
    paidAmount := d.paidAmount, date := d.date, year := d.year, notes := d.notes }

def expenseUpdateData (e : Expense) : ExpenseUpdateData :=
  { id := e.id, description := e.description, amount := e.amount, category := e.category,
    date := e.date, year := e.year, quantity := e.quantity, unit := e.unit }

def addDonation (online : Bool) (store : List QueuedAction) (donation : Donation)
    (now : Nat) (freshUuid : String) (net : DonationApiData → Option DonationPostResponse) :
    Except DbErr (AddOutcome Donation) × List QueuedAction × List NetCall :=
  if !online then
    match offlineQueue.enqueue store .ADD_DONATION (RecPayload.toQ (.don donation)) now freshUuid with
    | (.ok _, store') => (.ok (.queued donation), store', [])
    | (.error e, store') => (.error e, store', [])
  else
    let call := NetCall.createDonation (donationApiData donation)
    match net (donationApiData donation) with
    | none => (.error .networkError, store, [call])
    | some res =>
        (.ok (.confirmed { id := res.id, userId := donation.userId, donorName := res.donorName,
                           pledgedAmount := res.pledgedAmount, paidAmount := res.paidAmount,
                           date := res.date, year := res.year, notes := res.notes }),
         store, [call])

def addExpense (online : Bool) (store : List QueuedAction) (expense : Expense)
    (now : Nat) (freshUuid : String) (net : ExpenseApiData → Option ExpensePostResponse) :
    Except DbErr (AddOutcome Expense) × List QueuedAction × List NetCall :=
  if !online then
    match offlineQueue.enqueue store .ADD_EXPENSE (RecPayload.toQ (.exp expense)) now freshUuid with
    | (.ok _, store') => (.ok (.queued expense), store', [])
    | (.error e, store') => (.error e, store', [])
  else
    let call := NetCall.createExpense (expenseApiData expense)
    match net (expenseApiData expense) with
    | none => (.error .networkError, store, [call])
    | some res =>
        (.ok (.confirmed { id := res.id, userId := expense.userId, description := res.description,
                           amount := res.amount, category := res.category, date := res.date,
                           year := res.year, quantity := res.quantity, unit := res.unit }),
         store, [call])

/-- `updateDonation`: `if (!isOnline()) throw new OfflineError()`; it never
touches the queue (the store is threaded only to express that). -/
def updateDonation (online : Bool) (store : List QueuedAction) (donation : Donation)
    (net : Option Unit) : Except DbErr Donation × List QueuedAction × List NetCall :=
  if !online then (.error .offlineError, store, [])
  else
    match net with
    | none => (.error .networkError, store, [.putDonation (donationUpdateData donation)])
    | some _ => (.ok donation, store, [.putDonation (donationUpdateData donation)])

def deleteDonation (online : Bool) (store : List QueuedAction) (i : String)
    (net : Option Unit) : Except DbErr Unit × List QueuedAction × List NetCall :=
  if !online then (.error .offlineError, store, [])
  else
    match net with
    | none => (.error .networkError, store, [.deleteDonation i])
    | some _ => (.ok (), store, [.deleteDonation i])

def updateExpense (online : Bool) (store : List QueuedAction) (expense : Expense)
    (net : Option Unit) : Except DbErr Expense × List QueuedAction × List NetCall :=
  if !online then (.error .offlineError, store, [])
  else
    match net with
    | none => (.error .networkError, store, [.putExpense (expenseUpdateData expense)])
    | some _ => (.ok expense, store, [.putExpense (expenseUpdateData expense)])

def deleteExpense (online : Bool) (store : List QueuedAction) (i : String)
    (net : Option Unit) : Except DbErr Unit × List QueuedAction × List NetCall :=
  if !online then (.error .offlineError, store, [])
  else
    match net with
    | none => (.error .networkError, store, [.deleteExpense i])
    | some _ => (.ok (), store, [.deleteExpense i])

/-- `getDonations` maps the server's snake_case rows to camelCase records. -/
def donationFromRow (r : DonationRow) : Donation :=
  { id := r.id, userId := r.user_id, donorName := r.donor_name,
    pledgedAmount := r.pledged_amount, paidAmount := r.paid_amount,
    date := r.date, year := r.year, notes := r.notes }

def expenseFromRow (r : ExpenseRow) : Expense :=
  { id := r.id, userId := r.user_id, description := r.description, amount := r.amount,
    category := r.category, date := r.date, year := r.year,
    quantity := r.quantity, unit := r.unit }

end dbService

/-! ## Sync coordinator (`App.tsx`): drain on reconnect -/

/-- A queued action is well-formed when its tag matches its payload — the only
shape `dbService` ever enqueues. -/
def QueuedAction.wf (a : QueuedAction) : Prop :=
  match a.type, a.payload.body with
  | .ADD_DONATION, .don _ => True
  | .ADD_EXPENSE, .exp _ => True
  | _, _ => False

instance (a : QueuedAction) : Decidable a.wf := by
  unfold QueuedAction.wf
  exact match a.type, a.payload.body with
  | .ADD_DONATION, .don _ => .isTrue trivial
  | .ADD_DONATION, .exp _ => .isFalse id
  | .ADD_EXPENSE, .don _ => .isFalse id
  | .ADD_EXPENSE, .exp _ => .isTrue trivial

/-- One iteration of the drain loop: replay the action through the
corresponding `dbService` add call; on success `remove(action.id)`, on
rejection keep the item (`try`/`catch`, then continue). -/
def drainOne (online : Bool) (netD : DonationApiData → Option DonationPostResponse)
    (netE : ExpenseApiData → Option ExpensePostResponse) (now : Nat) (freshUuid : String)
    (store : List QueuedAction) (action : QueuedAction) :
    List QueuedAction × List NetCall :=
  match action.type, action.payload.body with
  | .ADD_DONATION, .don d =>
      let (res, store', calls) := dbService.addDonation online store d now freshUuid netD
      (match res with
       | .ok _ => offlineQueue.remove store' action.id
       | .error _ => store', calls)
  | .ADD_EXPENSE, .exp e =>
      let (res, store', calls) := dbService.addExpense online store e now freshUuid netE
      (match res with
       | .ok _ => offlineQueue.remove store' action.id
       | .error _ => store', calls)
  | _, _ => (store, [])

/-- `App.tsx: processOfflineQueue` — snapshots `offlineQueue.getAll()` once
and replays the snapshot in order, removing an item only when its create call
succeeded and continuing past failures. -/
def processOfflineQueue (online : Bool) (store : List QueuedAction)
    (netD : DonationApiData → Option DonationPostResponse)
    (netE : ExpenseApiData → Option ExpensePostResponse)
    (now : Nat) (freshUuid : String) : List QueuedAction × List NetCall :=
  let queue := offlineQueue.getAll store
  queue.foldl
    (fun acc action =>
      let (st, cs) := drainOne online netD netE now freshUuid acc.1 action
      (st, acc.2 ++ cs))
    (store, [])

/-- The create call a well-formed queued action is replayed as (empty for the
unreachable mismatched shapes). -/
def actionCalls (a : QueuedAction) : List NetCall :=
  match a.type, a.payload.body with
  | .ADD_DONATION, .don d => [.createDonation (dbService.donationApiData d)]
  | .ADD_EXPENSE, .exp e => [.createExpense (dbService.expenseApiData e)]
  | _, _ => []

/-- Whether the drain's create call for this action succeeds, as decided by
the network oracles. -/
def drainSuccess (netD : DonationApiData → Option DonationPostResponse)
    (netE : ExpenseApiData → Option ExpensePostResponse) (a : QueuedAction) : Bool :=
  match a.type, a.payload.body with
  | .ADD_DONATION, .don d => (netD (dbService.donationApiData d)).isSome
  | .ADD_EXPENSE, .exp e => (netE (dbService.expenseApiData e)).isSome
  | _, _ => false

/-! ## Sync coordinator (`App.tsx`): read path -/

/-- A localStorage cache key `iftar_cache_{userId}_{year}_…`. -/
abbrev CacheKey := String × Int

def lookupKey {α : Type} (m : List (CacheKey × α)) (k : CacheKey) : Option α :=
  (m.find? (fun p => p.1 == k)).map Prod.snd

/-- `localStorage.setItem`: wholesale replace of the value at one key. -/
def upsertKey {α : Type} (m : List (CacheKey × α)) (k : CacheKey) (v : α) :
    List (CacheKey × α) :=
  m.filter (fun p => p.1 != k) ++ [(k, v)]

/-- The localStorage data cache: one record list per (userId, year) key and
record type. -/
structure Cache where
  dons : List (CacheKey × List Donation)
  exps : List (CacheKey × List Expense)
deriving DecidableEq, Repr

/-- The React state the coordinator writes (`setDonations` / `setExpenses`). -/
structure AppState where
  donations : List Donation
  expenses : List Expense
deriving DecidableEq, Repr

/-- Result of one `refreshData` call: the state right after the cache seed
(step 1), the state when the call settles, the cache afterwards, the network
calls issued, and the error the promise rejected with, if any. -/
structure RefreshOut where
  seeded : AppState
  final : AppState
  cache : Cache
  calls : List NetCall
  err : Option DbErr
deriving DecidableEq, Repr

/-- `App.tsx: refreshData` — seed state from the cache when present, stop if
offline, otherwise fetch both lists (`Promise.all`) and overwrite state and
cache with the fresh results. -/
def refreshData (uid : String) (year : Int) (online : Bool) (st0 : AppState) (cache : Cache)
    (netD : Option (List DonationRow)) (netE : Option (List ExpenseRow)) : RefreshOut :=
  let cachedD := lookupKey cache.dons (uid, year)
  let cachedE := lookupKey cache.exps (uid, year)
  let st1 : AppState :=
    { donations := cachedD.getD st0.donations, expenses := cachedE.getD st0.expenses }
  if !online then ⟨st1, st1, cache, [], none⟩
  else
    match netD, netE with
    | some dr, some er =>
        let fetchedD := dr.map dbService.donationFromRow
        let fetchedE := er.map dbService.expenseFromRow
        ⟨st1, ⟨fetchedD, fetchedE⟩,
         ⟨upsertKey cache.dons (uid, year) fetchedD, upsertKey cache.exps (uid, year) fetchedE⟩,
         [.getDonations year, .getExpenses year], none⟩
    | _, _ => ⟨st1, st1, cache, [.getDonations year, .getExpenses year], some .networkError⟩

/-! ## Batches of offline writes (for the replay claims) -/

/-- The queued action an offline `addDonation`/`addExpense` call produces. -/
def owAction (w : RecPayload) (t : Nat) : QueuedAction :=
  match w with
  | .don d => { id := d.id, type := .ADD_DONATION, payload := RecPayload.toQ (.don d), timestamp := t }
  | .exp e => { id := e.id, type := .ADD_EXPENSE, payload := RecPayload.toQ (.exp e), timestamp := t }

/-- The id of the record an offline write carries. -/
def payloadId : RecPayload → String
  | .don d => d.id
  | .exp e => e.id

/-- The create call a record's replay issues. -/
def payloadCall : RecPayload → NetCall
  | .don d => .createDonation (dbService.donationApiData d)
  | .exp e => .createExpense (dbService.expenseApiData e)

/-- One additive write attempted while offline, at clock value `t`. -/
def offlineAdd (store : List QueuedAction) : RecPayload → Nat → List QueuedAction
  | .don d, t => (dbService.addDonation false store d t "" (fun _ => none)).2.1
  | .exp e, t => (dbService.addExpense false store e t "" (fun _ => none)).2.1

/-- A sequence of additive writes performed while offline, in order. -/
def runOfflineWrites (store : List QueuedAction) : List (RecPayload × Nat) → List QueuedAction
  | [] => store
  | (w, t) :: ws => runOfflineWrites (offlineAdd store w t) ws

/-! ## Ordering facts about `offlineQueue.getAll` -/

/-- Timestamp order refined by key order: the order `getAll` actually emits. -/
def lexLe (a b : QueuedAction) : Prop :=
  a.timestamp < b.timestamp ∨ (a.timestamp = b.timestamp ∧ offlineQueue.idLe a b)

theorem sorted_lexLe_orderedInsert (a : QueuedAction) :
    ∀ l : List QueuedAction, l.Sorted lexLe → (∀ b ∈ l, offlineQueue.idLe a b) →
      (List.orderedInsert offlineQueue.tsLe a l).Sorted lexLe
  | [], _, _ => List.sorted_singleton a
  | b :: l, hs, hid => by
    by_cases h : offlineQueue.tsLe a b
    · rw [List.orderedInsert, if_pos h]
      rw [List.sorted_cons]
      refine ⟨fun c hc => ?_, hs⟩
      have hbc : a.timestamp ≤ c.timestamp := by
        rcases List.mem_cons.mp hc with rfl | hc'
        · exact h
        · have := (List.sorted_cons.mp hs).1 c hc'
          rcases this with h' | ⟨h', _⟩
          · exact le_trans h (le_of_lt h')
          · exact le_trans h (le_of_eq h')
      rcases lt_or_eq_of_le hbc with h' | h'
      · exact Or.inl h'
      · exact Or.inr ⟨h', hid c hc⟩
    · rw [List.orderedInsert, if_neg h]
      rw [List.sorted_cons]
      constructor
      · intro c hc
        rcases (List.mem_orderedInsert offlineQueue.tsLe).mp hc with rfl | hc'
        · exact Or.inl (lt_of_not_le h)
        · exact (List.sorted_cons.mp hs).1 c hc'
      · exact sorted_lexLe_orderedInsert a l (List.sorted_cons.mp hs).2
          (fun c hc => hid c (List.mem_cons_of_mem b hc))

theorem sorted_lexLe_insertionSort :
    ∀ l : List QueuedAction, l.Sorted offlineQueue.idLe →
      (List.insertionSort offlineQueue.tsLe l).Sorted lexLe
  | [], _ => List.sorted_nil
  | a :: l, hs => by
    rw [List.insertionSort]
    refine sorted_lexLe_orderedInsert a _ (sorted_lexLe_insertionSort l (List.sorted_cons.mp hs).2)
      (fun b hb => ?_)
    exact (List.sorted_cons.mp hs).1 b ((List.mem_insertionSort offlineQueue.tsLe).mp hb)

theorem getAll_perm (store : List QueuedAction) : (offlineQueue.getAll store).Perm store :=
  (List.perm_insertionSort offlineQueue.tsLe _).trans
    (List.perm_insertionSort offlineQueue.idLe store)

theorem getAll_sorted_ts (store : List QueuedAction) :
    (offlineQueue.getAll store).Sorted offlineQueue.tsLe :=
  List.sorted_insertionSort offlineQueue.tsLe _

theorem getAll_sorted_lex (store : List QueuedAction) :
    (offlineQueue.getAll store).Sorted lexLe :=
  sorted_lexLe_insertionSort _ (List.sorted_insertionSort offlineQueue.idLe store)

/-- Two permuted lists, both sorted by timestamp, with pairwise-distinct
timestamps, are equal. -/
theorem eq_of_perm_sorted_ts_nodup :
    ∀ (l : List QueuedAction) {m : List QueuedAction}, l.Perm m →
      l.Sorted offlineQueue.tsLe → m.Sorted offlineQueue.tsLe →
      (l.map QueuedAction.timestamp).Nodup → l = m
  | [], _, p, _, _, _ => (p.symm.eq_nil).symm
  | a :: l', m, p, sl, sm, nd => by
    cases m with
    | nil => exact (List.cons_ne_nil a l' p.eq_nil).elim
    | cons b m' =>
      by_cases hab : a = b
      · subst hab
        have htl : l' = m' := by
          refine eq_of_perm_sorted_ts_nodup l' p.cons_inv
            (List.sorted_cons.mp sl).2 (List.sorted_cons.mp sm).2 ?_
          rw [List.map_cons] at nd
          exact (List.nodup_cons.mp nd).2
        rw [htl]
      · exfalso
        have hbm : b ∈ a :: l' := p.symm.subset (List.mem_cons_self b m')
        have hbl' : b ∈ l' := by
          rcases List.mem_cons.mp hbm with h | h
          · exact absurd h.symm hab
          · exact h
        have ham : a ∈ b :: m' := p.subset (List.mem_cons_self a l')
        have ham' : a ∈ m' := by
          rcases List.mem_cons.mp ham with h | h
          · exact absurd h hab
          · exact h
        have h1 : offlineQueue.tsLe a b := (List.sorted_cons.mp sl).1 b hbl'
        have h2 : offlineQueue.tsLe b a := (List.sorted_cons.mp sm).1 a ham'
        have hts : a.timestamp = b.timestamp := le_antisymm h1 h2
        have hmem : a.timestamp ∈ l'.map QueuedAction.timestamp := by
          rw [hts]; exact List.mem_map_of_mem _ hbl'
        rw [List.map_cons] at nd
        exact (List.nodup_cons.mp nd).1 hmem

/-! ## Behaviour of a batch of offline writes -/

theorem storeHasId_eq_false_iff (store : List QueuedAction) (i : String) :
    storeHasId store i = false ↔ i ∉ store.map QueuedAction.id := by
  simp only [storeHasId, List.any_eq_false, beq_iff_eq, ne_eq, List.mem_map,
    not_exists, not_and]

theorem offlineAdd_eq (store : List QueuedAction) (w : RecPayload) (t : Nat)
    (h : storeHasId store (payloadId w) = false) :
    offlineAdd store w t = store ++ [owAction w t] := by
  cases w with
  | don d =>
      simp only [payloadId] at h
      simp [offlineAdd, dbService.addDonation, offlineQueue.enqueue, RecPayload.toQ,
        Option.getD, h, owAction]
  | exp e =>
      simp only [payloadId] at h
      simp [offlineAdd, dbService.addExpense, offlineQueue.enqueue, RecPayload.toQ,
        Option.getD, h, owAction]

theorem runOfflineWrites_eq :
    ∀ (ws : List (RecPayload × Nat)) (store : List QueuedAction),
      (store.map QueuedAction.id ++ ws.map (fun p => payloadId p.1)).Nodup →
      runOfflineWrites store ws = store ++ ws.map (fun p => owAction p.1 p.2)
  | [], store, _ => by simp [runOfflineWrites]
  | (w, t) :: ws, store, hn => by
    have hfresh : storeHasId store (payloadId w) = false := by
      rw [storeHasId_eq_false_iff]
      intro hmem
      have : List.Disjoint (store.map QueuedAction.id)
          (((w, t) :: ws).map (fun p => payloadId p.1)) :=
        List.disjoint_of_nodup_append hn
      exact this hmem (by simp)
    rw [runOfflineWrites, offlineAdd_eq store w t hfresh]
    rw [runOfflineWrites_eq ws (store ++ [owAction w t]) ?_]
    · simp [owAction]
    · have : (store ++ [owAction w t]).map QueuedAction.id ++ ws.map (fun p => payloadId p.1)
          = store.map QueuedAction.id ++ (payloadId w :: ws.map (fun p => payloadId p.1)) := by
        cases w <;> simp [owAction, payloadId]
      rw [this]
      simpa using hn

theorem owAction_wf (w : RecPayload) (t : Nat) : (owAction w t).wf := by
  cases w <;> trivial

theorem owAction_timestamp (w : RecPayload) (t : Nat) : (owAction w t).timestamp = t := by
  cases w <;> simp [owAction, RecPayload.toQ]

theorem actionCalls_owAction (w : RecPayload) (t : Nat) :
    actionCalls (owAction w t) = [payloadCall w] := by
  cases w <;> simp [owAction, actionCalls, RecPayload.toQ, payloadCall]

/-! ## Behaviour of the drain loop -/

theorem drainOne_online_wf (netD : DonationApiData → Option DonationPostResponse)
    (netE : ExpenseApiData → Option ExpensePostResponse) (now : Nat) (freshUuid : String)
    (store : List QueuedAction) (a : QueuedAction) (hwf : a.wf) :
    drainOne true netD netE now freshUuid store a =
      ((if drainSuccess netD netE a then offlineQueue.remove store a.id else store),
       actionCalls a) := by
  obtain ⟨aid, aty, ⟨pid, pbody⟩, ats⟩ := a
  cases aty <;> cases pbody
  case ADD_DONATION.don d =>
      simp only [drainOne, drainSuccess, actionCalls, dbService.addDonation]
      cases hnet : netD (dbService.donationApiData d) <;> simp [hnet]
  case ADD_DONATION.exp e => exact False.elim hwf
  case ADD_EXPENSE.don d => exact False.elim hwf
  case ADD_EXPENSE.exp e =>
      simp only [drainOne, drainSuccess, actionCalls, dbService.addExpense]
      cases hnet : netE (dbService.expenseApiData e) <;> simp [hnet]

/-- The network calls the drain loop issues: one create per snapshotted item,
in snapshot order, no matter which items fail. -/
theorem drain_foldl_calls (netD : DonationApiData → Option DonationPostResponse)
    (netE : ExpenseApiData → Option ExpensePostResponse) (now : Nat) (freshUuid : String) :
    ∀ (q : List QueuedAction) (store : List QueuedAction) (cs : List NetCall),
      (∀ a ∈ q, a.wf) →
      (q.foldl (fun acc action =>
          let (st, c) := drainOne true netD netE now freshUuid acc.1 action
          (st, acc.2 ++ c)) (store, cs)).2
        = cs ++ (q.map actionCalls).flatten
  | [], store, cs, _ => by simp
  | a :: q, store, cs, hwf => by
    rw [List.foldl_cons]
    have ha := drainOne_online_wf netD netE now freshUuid store a (hwf a (List.mem_cons_self a q))
    rw [drain_foldl_calls netD netE now freshUuid q _ _ (fun b hb => hwf b (List.mem_cons_of_mem a hb))]
    simp [ha]

/-- The queue store after the drain loop: an item is removed exactly when some
snapshotted item with its id had a successful create call. -/
theorem drain_foldl_store (netD : DonationApiData → Option DonationPostResponse)
    (netE : ExpenseApiData → Option ExpensePostResponse) (now : Nat) (freshUuid : String) :
    ∀ (q : List QueuedAction) (store : List QueuedAction) (cs : List NetCall),
      (∀ a ∈ q, a.wf) →
      (q.foldl (fun acc action =>
          let (st, c) := drainOne true netD netE now freshUuid acc.1 action
          (st, acc.2 ++ c)) (store, cs)).1
        = store.filter (fun b => !(q.any (fun a => drainSuccess netD netE a && a.id == b.id)))
  | [], store, cs, _ => by simp
  | a :: q, store, cs, hwf => by
    rw [List.foldl_cons]
    have ha := drainOne_online_wf netD netE now freshUuid store a (hwf a (List.mem_cons_self a q))
    rw [show (let (st, c) := drainOne true netD netE now freshUuid store a
              ((st, cs ++ c) : List QueuedAction × List NetCall))
          = ((if drainSuccess netD netE a then offlineQueue.remove store a.id else store),
             cs ++ actionCalls a) by rw [ha]]
    rw [drain_foldl_store netD netE now freshUuid q _ _
      (fun b hb => hwf b (List.mem_cons_of_mem a hb))]
    by_cases hs : drainSuccess netD netE a
    · rw [if_pos hs]
      unfold offlineQueue.remove
      rw [List.filter_filter]
      refine List.filter_congr (fun b _ => ?_)
      by_cases hid : a.id = b.id
      · simp [hs, hid, bne]
      · have h1 : (b.id == a.id) = false := beq_eq_false_iff_ne.mpr (Ne.symm hid)
        have h2 : (a.id == b.id) = false := beq_eq_false_iff_ne.mpr hid
        simp [hs, h1, h2, bne, Bool.and_comm]
    · rw [if_neg hs]
      refine List.filter_congr (fun b _ => ?_)
      simp only [Bool.not_eq_true'] at hs
      simp [hs]

/-! ## Remaining small facts -/

theorem storeHasId_eq_true_iff (store : List QueuedAction) (i : String) :
    storeHasId store i = true ↔ i ∈ store.map QueuedAction.id := by
  rcases h : storeHasId store i with _ | _
  · simp only [Bool.false_eq_true, false_iff]
    exact (storeHasId_eq_false_iff store i).mp h
  · simp only [true_iff]
    by_contra hmem
    rw [← storeHasId_eq_false_iff store i] at hmem
    rw [h] at hmem
    exact Bool.true_eq_false.mp hmem

theorem flatten_map_singleton {α β : Type} (f : α → β) :
    ∀ l : List α, (l.map (fun a => [f a])).flatten = l.map f
  | [] => rfl
  | a :: l => by simp [flatten_map_singleton f l]

theorem lookupKey_upsertKey {α : Type} (m : List (CacheKey × α)) (k : CacheKey) (v : α) :
    lookupKey (upsertKey m k v) k = some v := by
  unfold lookupKey upsertKey
  induction m with
  | nil => simp
  | cons p m ih =>
      by_cases h : p.1 = k
      · rw [List.filter_cons, if_neg (by simp [bne, h])]
        exact ih
      · rw [List.filter_cons, if_pos (by simp [bne, h]), List.cons_append,
          List.find?_cons_of_neg _ (by simp [h])]
        exact ih

/-! ## Sample records used in concrete runs -/

def donA : Donation :=
  { id := "a", userId := "u1", donorName := "Ali", pledgedAmount := 100, paidAmount := 0,
    date := "2026-03-01", year := 2026, notes := none }

def donB : Donation :=
  { id := "b", userId := "u1", donorName := "Badr", pledgedAmount := 200, paidAmount := 50,
    date := "2026-03-01", year := 2026, notes := some "second" }

def expC : Expense :=
  { id := "c", userId := "u1", description := "Rice", amount := 50, category := "Food",
    date := "2026-03-02", year := 2026, quantity := some 2, unit := some "kg" }

/-! ## Claims -/

/-- C2: every update/delete operation attempted while OFFLINE rejects with the
distinguished `OfflineError` immediately, issues no network call, and leaves
the mutation queue untouched (same contents, hence same size). -/
theorem claim_C2_mutating_writes_offline (store : List QueuedAction) (d : Donation) (e : Expense)
    (i j : String) (net : Option Unit) :
    dbService.updateDonation false store d net = (.error .offlineError, store, []) ∧
    dbService.deleteDonation false store i net = (.error .offlineError, store, []) ∧
    dbService.updateExpense false store e net = (.error .offlineError, store, []) ∧
    dbService.deleteExpense false store j net = (.error .offlineError, store, []) :=
  ⟨rfl, rfl, rfl, rfl⟩

/-- C7 fails as stated: two mutations enqueued with equal timestamps (`donB`
first, then `donA`) come back from `getAll` in id order `[a, b]`, not in their
insertion order `[b, a]` — IndexedDB's `getAll` yields key order, and the
stable timestamp sort preserves that on ties. -/
theorem claim_C7_counterexample :
    runOfflineWrites [] [(.don donB, 5), (.don donA, 5)]
      = [owAction (.don donB) 5, owAction (.don donA) 5] ∧
    offlineQueue.getAll (runOfflineWrites [] [(.don donB, 5), (.don donA, 5)])
      = [owAction (.don donA) 5, owAction (.don donB) 5] ∧
    [owAction (.don donA) 5, owAction (.don donB) 5]
      ≠ [owAction (.don donB) 5, owAction (.don donA) 5] := by
  refine ⟨by decide, by decide, by decide⟩

/-- C7 (amended): `getAll` returns all pending mutations sorted ascending by
`timestamp`; mutations with equal timestamps appear in ascending id
(IndexedDB key) order — not in insertion order. -/
theorem claim_C7_getAll_order (store : List QueuedAction) :
    (offlineQueue.getAll store).Perm store ∧
    (offlineQueue.getAll store).Sorted offlineQueue.tsLe ∧
    (offlineQueue.getAll store).Sorted lexLe :=
  ⟨getAll_perm store, getAll_sorted_ts store, getAll_sorted_lex store⟩

/-- C9: `remove` is idempotent — removing an absent id is a no-op (the model's
`remove` is total, mirroring `IDBObjectStore.delete`, which succeeds whether
or not the key exists), and removing twice equals removing once. -/
theorem claim_C9_remove_idempotent (store : List QueuedAction) (i : String) :
    offlineQueue.remove (offlineQueue.remove store i) i = offlineQueue.remove store i ∧
    (i ∉ store.map QueuedAction.id → offlineQueue.remove store i = store) := by
  constructor
  · unfold offlineQueue.remove
    rw [List.filter_filter]
    exact List.filter_congr (fun a _ => Bool.and_self _)
  · intro h
    unfold offlineQueue.remove
    refine List.filter_eq_self.mpr (fun a ha => ?_)
    have : ¬ a.id = i := fun heq => h (heq ▸ List.mem_map_of_mem QueuedAction.id ha)
    simp [bne, this]

/-- Witness for C9 at a concrete queue: `"z"` is absent, so one removal is a
no-op and a second removal changes nothing. -/
theorem claim_C9_remove_idempotent_witness :
    offlineQueue.remove (offlineQueue.remove [owAction (.don donA) 3] "z") "z"
        = offlineQueue.remove [owAction (.don donA) 3] "z" ∧
    offlineQueue.remove [owAction (.don donA) 3] "z" = [owAction (.don donA) 3] :=
  ⟨(claim_C9_remove_idempotent [owAction (.don donA) 3] "z").1,
   (claim_C9_remove_idempotent [owAction (.don donA) 3] "z").2 (by decide)⟩

/-- C4 fails as stated: a record submitted with client id `"a1"` comes back
from a successful online create with the server's fresh primary key `"srv-1"`
(`handleDonations` POST ignores any client id — the create body does not even
carry one), so the id is *not* preserved across sync. -/
theorem claim_C4_counterexample :
    (dbService.addDonation true [] { donA with id := "a1" } 5 "u"
        (fun body => some (handleDonationsPost "u1" body "srv-1" []).2)).1
      = .ok (.confirmed { donA with id := "srv-1" }) ∧
    ("srv-1" : String) ≠ "a1" :=
  ⟨by decide, by decide⟩

/-- C4 (amended): the create body sent by the client carries only the record's
fields (no id), the server stores the row under a fresh server-generated id,
and the record the client gets back carries that server id — the queued
mutation's id is only a temporary client-side id, not the durable primary
key. -/
theorem claim_C4_server_assigns_id (store : List QueuedAction) (d : Donation) (e : Expense)
    (now : Nat) (freshUuid uid serverIdD serverIdE : String)
    (dbD : List DonationRow) (dbE : List ExpenseRow) :
    dbService.addDonation true store d now freshUuid
        (fun body => some (handleDonationsPost uid body serverIdD dbD).2)
      = (.ok (.confirmed { d with id := serverIdD }), store,
         [.createDonation (dbService.donationApiData d)]) ∧
    (handleDonationsPost uid (dbService.donationApiData d) serverIdD dbD).1.map DonationRow.id
      = dbD.map DonationRow.id ++ [serverIdD] ∧
    dbService.addExpense true store e now freshUuid
        (fun body => some (handleExpensesPost uid body serverIdE dbE).2)
      = (.ok (.confirmed { e with id := serverIdE }), store,
         [.createExpense (dbService.expenseApiData e)]) ∧
    (handleExpensesPost uid (dbService.expenseApiData e) serverIdE dbE).1.map ExpenseRow.id
      = dbE.map ExpenseRow.id ++ [serverIdE] := by
  refine ⟨rfl, by simp [handleDonationsPost], rfl, by simp [handleExpensesPost]⟩

/-- C1 fails as stated: an `addDonation` attempted ONLINE whose create call
throws a NetworkError rejects with that error — it does not report a queued
outcome — and the mutation queue is left empty: there is no fallback
enqueue in the online path. -/
theorem claim_C1_counterexample :
    (dbService.addDonation true [] donA 5 "u" (fun _ => none)).1 = .error .networkError ∧
    (dbService.addDonation true [] donA 5 "u" (fun _ => none)).2.1 = [] :=
  ⟨rfl, rfl⟩

/-- C1 (amended): an additive write attempted ONLINE whose create call fails
propagates the NetworkError and enqueues nothing (the queue is unchanged);
only a write attempted while OFFLINE is enqueued — there the queue gains one
mutation whose payload is the submitted record and the call reports a queued
outcome. -/
theorem claim_C1_online_failure_propagates (store : List QueuedAction) (d : Donation)
    (e : Expense) (now : Nat) (freshUuid : String)
    (netD : DonationApiData → Option DonationPostResponse)
    (netE : ExpenseApiData → Option ExpensePostResponse)
    (hd : storeHasId store d.id = false) (he : storeHasId store e.id = false)
    (hnd : netD (dbService.donationApiData d) = none)
    (hne : netE (dbService.expenseApiData e) = none) :
    dbService.addDonation true store d now freshUuid netD
      = (.error .networkError, store, [.createDonation (dbService.donationApiData d)]) ∧
    dbService.addExpense true store e now freshUuid netE
      = (.error .networkError, store, [.createExpense (dbService.expenseApiData e)]) ∧
    dbService.addDonation false store d now freshUuid netD
      = (.ok (.queued d), store ++ [owAction (.don d) now], []) ∧
    dbService.addExpense false store e now freshUuid netE
      = (.ok (.queued e), store ++ [owAction (.exp e) now], []) := by
  refine ⟨?_, ?_, ?_, ?_⟩
  · simp [dbService.addDonation, hnd]
  · simp [dbService.addExpense, hne]
  · simp [dbService.addDonation, offlineQueue.enqueue, RecPayload.toQ, hd, owAction]
  · simp [dbService.addExpense, offlineQueue.enqueue, RecPayload.toQ, he, owAction]

/-- Witness for C1 (amended) at concrete inputs: an empty queue, `donA`/`expC`
and an always-failing network. -/
theorem claim_C1_online_failure_propagates_witness :
    dbService.addDonation true [] donA 5 "u" (fun _ => none)
      = (.error .networkError, [], [.createDonation (dbService.donationApiData donA)]) ∧
    dbService.addExpense true [] expC 5 "u" (fun _ => none)
      = (.error .networkError, [], [.createExpense (dbService.expenseApiData expC)]) ∧
    dbService.addDonation false [] donA 5 "u" (fun _ => none)
      = (.ok (.queued donA), [] ++ [owAction (.don donA) 5], []) ∧
    dbService.addExpense false [] expC 5 "u" (fun _ => none)
      = (.ok (.queued expC), [] ++ [owAction (.exp expC) 5], []) :=
  claim_C1_online_failure_propagates [] donA expC 5 "u" (fun _ => none) (fun _ => none)
    rfl rfl rfl rfl

/-- C8: `enqueue` builds the mutation with id `payload.id` when the payload
carries one and the freshly generated UUID otherwise, stamps it with the
current clock value, appends it to the persisted store, and returns exactly
that mutation (provided its id is not already taken, see C10). -/
theorem claim_C8_enqueue_spec (store : List QueuedAction) (ty : QueuedActionType)
    (payload : QPayload) (now : Nat) (freshUuid : String)
    (h : storeHasId store (payload.idField.getD freshUuid) = false) :
    offlineQueue.enqueue store ty payload now freshUuid
      = (.ok { id := payload.idField.getD freshUuid, type := ty, payload := payload,
               timestamp := now },
         store ++ [{ id := payload.idField.getD freshUuid, type := ty, payload := payload,
                     timestamp := now }]) ∧
    (∀ i, payload.idField = some i → payload.idField.getD freshUuid = i) ∧
    (payload.idField = none → payload.idField.getD freshUuid = freshUuid) := by
  refine ⟨?_, ?_, ?_⟩
  · simp [offlineQueue.enqueue, h]
  · intro i hi; rw [hi]; rfl
  · intro hi; rw [hi]; rfl

/-- Witness for C8 at a concrete payload carrying id `"a"` into an empty
store. -/
theorem claim_C8_enqueue_spec_witness :
    offlineQueue.enqueue [] .ADD_DONATION (RecPayload.toQ (.don donA)) 5 "u"
      = (.ok { id := (RecPayload.toQ (.don donA)).idField.getD "u", type := .ADD_DONATION,
               payload := RecPayload.toQ (.don donA), timestamp := 5 },
         [] ++ [{ id := (RecPayload.toQ (.don donA)).idField.getD "u", type := .ADD_DONATION,
                  payload := RecPayload.toQ (.don donA), timestamp := 5 }]) ∧
    (∀ i, (RecPayload.toQ (.don donA)).idField = some i →
        (RecPayload.toQ (.don donA)).idField.getD "u" = i) ∧
    ((RecPayload.toQ (.don donA)).idField = none →
        (RecPayload.toQ (.don donA)).idField.getD "u" = "u") :=
  claim_C8_enqueue_spec [] .ADD_DONATION (RecPayload.toQ (.don donA)) 5 "u" (by decide)

/-- C10: `enqueue` with a payload whose id is already the key of a queued
mutation rejects with the IndexedDB constraint error and leaves the queue
unchanged — a queued mutation is never silently overwritten. -/
theorem claim_C10_enqueue_duplicate (store : List QueuedAction) (ty : QueuedActionType)
    (payload : QPayload) (now : Nat) (freshUuid : String) (i : String)
    (hid : payload.idField = some i) (hmem : i ∈ store.map QueuedAction.id) :
    offlineQueue.enqueue store ty payload now freshUuid = (.error .constraintError, store) := by
  have hkey : payload.idField.getD freshUuid = i := by rw [hid]; rfl
  have htrue : storeHasId store (payload.idField.getD freshUuid) = true := by
    rw [hkey]
    exact (storeHasId_eq_true_iff store i).mpr hmem
  simp [offlineQueue.enqueue, htrue]

/-- Witness for C10: re-enqueueing a payload with id `"a"` while a mutation
with id `"a"` is already queued rejects and leaves the queue as it was. -/
theorem claim_C10_enqueue_duplicate_witness :
    offlineQueue.enqueue [owAction (.don donA) 3] .ADD_DONATION (RecPayload.toQ (.don donA)) 5 "u"
      = (.error .constraintError, [owAction (.don donA) 3]) :=
  claim_C10_enqueue_duplicate [owAction (.don donA) 3] .ADD_DONATION
    (RecPayload.toQ (.don donA)) 5 "u" "a" (by decide) (by decide)

/-- C3 fails as stated: two writes enqueued OFFLINE in the order `donB` then
`donA` with equal `Date.now()` timestamps are replayed by the drain as
`[create donA, create donB]` — id order, not enqueue order (the network does
still receive exactly two create calls). -/
theorem claim_C3_counterexample :
    (processOfflineQueue true (runOfflineWrites [] [(.don donB, 5), (.don donA, 5)])
        (fun _ => none) (fun _ => none) 9 "u").2
      = [payloadCall (.don donA), payloadCall (.don donB)] ∧
    [payloadCall (.don donA), payloadCall (.don donB)]
      ≠ [payloadCall (.don donB), payloadCall (.don donA)] :=
  ⟨by decide, by decide⟩

/-- C3 (amended): for writes enqueued OFFLINE whose timestamps strictly
increase along the enqueue order (and whose ids are distinct), draining after
going ONLINE issues exactly N create calls, in enqueue order.  (When
timestamps tie, the replay order is id order instead — see the
counterexample.) -/
theorem claim_C3_fifo_replay (ws : List (RecPayload × Nat))
    (netD : DonationApiData → Option DonationPostResponse)
    (netE : ExpenseApiData → Option ExpensePostResponse) (now : Nat) (freshUuid : String)
    (hts : (ws.map Prod.snd).Sorted (· < ·))
    (hids : (ws.map (fun p => payloadId p.1)).Nodup) :
    (processOfflineQueue true (runOfflineWrites [] ws) netD netE now freshUuid).2
      = ws.map (fun p => payloadCall p.1) ∧
    (processOfflineQueue true (runOfflineWrites [] ws) netD netE now freshUuid).2.length
      = ws.length := by
  have hrun : runOfflineWrites [] ws = ws.map (fun p => owAction p.1 p.2) :=
    runOfflineWrites_eq ws [] (by simpa using hids)
  have hwf : ∀ a ∈ ws.map (fun p : RecPayload × Nat => owAction p.1 p.2), a.wf := by
    intro a ha
    rcases List.mem_map.mp ha with ⟨p, _, rfl⟩
    exact owAction_wf p.1 p.2
  have hpair : List.Pairwise (fun p q : RecPayload × Nat => p.2 < q.2) ws := by
    rw [List.Sorted, List.pairwise_map] at hts
    exact hts
  have hts_actions : (ws.map (fun p : RecPayload × Nat => owAction p.1 p.2)).Sorted
      offlineQueue.tsLe := by
    rw [List.Sorted, List.pairwise_map]
    refine hpair.imp (fun h => ?_)
    unfold offlineQueue.tsLe
    rw [owAction_timestamp, owAction_timestamp]
    exact Nat.le_of_lt h
  have hnodup_ts : ((ws.map (fun p : RecPayload × Nat => owAction p.1 p.2)).map
      QueuedAction.timestamp).Nodup := by
    rw [List.map_map]
    have hfun : (QueuedAction.timestamp ∘ fun p : RecPayload × Nat => owAction p.1 p.2)
        = Prod.snd := funext (fun p => owAction_timestamp p.1 p.2)
    rw [hfun]
    exact hts.imp (fun h => ne_of_lt h)
  have hgetAll : offlineQueue.getAll (ws.map (fun p : RecPayload × Nat => owAction p.1 p.2))
      = ws.map (fun p : RecPayload × Nat => owAction p.1 p.2) := by
    refine eq_of_perm_sorted_ts_nodup _ (getAll_perm _) (getAll_sorted_ts _) hts_actions ?_
    exact (((getAll_perm _).map QueuedAction.timestamp).nodup_iff).mpr hnodup_ts
  have hcalls : (processOfflineQueue true (runOfflineWrites [] ws) netD netE now freshUuid).2
      = ws.map (fun p => payloadCall p.1) := by
    rw [hrun]
    show (((offlineQueue.getAll (ws.map (fun p : RecPayload × Nat => owAction p.1 p.2))).foldl
        (fun acc action =>
          let (st, cs) := drainOne true netD netE now freshUuid acc.1 action
          (st, acc.2 ++ cs))
        (ws.map (fun p : RecPayload × Nat => owAction p.1 p.2), []))).2
      = ws.map (fun p => payloadCall p.1)
    rw [hgetAll, drain_foldl_calls netD netE now freshUuid _ _ [] hwf]
    rw [List.nil_append, List.map_map]
    have hfun : (actionCalls ∘ fun p : RecPayload × Nat => owAction p.1 p.2)
        = fun p : RecPayload × Nat => [payloadCall p.1] :=
      funext (fun p => actionCalls_owAction p.1 p.2)
    rw [hfun]
    exact flatten_map_singleton (fun p : RecPayload × Nat => payloadCall p.1) ws
  exact ⟨hcalls, by rw [hcalls, List.length_map]⟩

/-- Witness for C3 (amended): two offline writes at clock values 1 and 2 with
distinct ids replay as their two create calls, in enqueue order. -/
theorem claim_C3_fifo_replay_witness :
    (processOfflineQueue true (runOfflineWrites [] [(.don donA, 1), (.exp expC, 2)])
        (fun _ => none) (fun _ => none) 9 "u").2
      = [(.don donA, 1), ((.exp expC : RecPayload), (2 : Nat))].map (fun p => payloadCall p.1) ∧
    (processOfflineQueue true (runOfflineWrites [] [(.don donA, 1), (.exp expC, 2)])
        (fun _ => none) (fun _ => none) 9 "u").2.length
      = [(.don donA, 1), ((.exp expC : RecPayload), (2 : Nat))].length :=
  claim_C3_fifo_replay [(.don donA, 1), (.exp expC, 2)] (fun _ => none) (fun _ => none) 9 "u"
    (by decide) (by decide)

/-- C6: during a drain, the network create call of every snapshotted mutation
is attempted, in snapshot order, even after earlier ones fail; and the queue
afterwards holds exactly the mutations whose create call failed — an item is
removed only when its create call succeeds. -/
theorem claim_C6_drain_failure_isolation (store : List QueuedAction)
    (netD : DonationApiData → Option DonationPostResponse)
    (netE : ExpenseApiData → Option ExpensePostResponse) (now : Nat) (freshUuid : String)
    (hwf : ∀ a ∈ store, a.wf) (hnd : (store.map QueuedAction.id).Nodup) :
    (processOfflineQueue true store netD netE now freshUuid).2
      = ((offlineQueue.getAll store).map actionCalls).flatten ∧
    (processOfflineQueue true store netD netE now freshUuid).1
      = store.filter (fun a => !(drainSuccess netD netE a)) := by
  have hwf' : ∀ a ∈ offlineQueue.getAll store, a.wf :=
    fun a ha => hwf a ((getAll_perm store).subset ha)
  constructor
  · show (((offlineQueue.getAll store).foldl
        (fun acc action =>
          let (st, cs) := drainOne true netD netE now freshUuid acc.1 action
          (st, acc.2 ++ cs)) (store, []))).2 = _
    rw [drain_foldl_calls netD netE now freshUuid _ store [] hwf']
    rw [List.nil_append]
  · show (((offlineQueue.getAll store).foldl
        (fun acc action =>
          let (st, cs) := drainOne true netD netE now freshUuid acc.1 action
          (st, acc.2 ++ cs)) (store, []))).1 = _
    rw [drain_foldl_store netD netE now freshUuid _ store [] hwf']
    refine List.filter_congr (fun b hb => ?_)
    congr 1
    rcases hsb : drainSuccess netD netE b with _ | _
    · rw [List.any_eq_false]
      intro a ha hcontra
      rw [Bool.and_eq_true, beq_iff_eq] at hcontra
      have haS : a ∈ store := (getAll_perm store).subset ha
      have hab : a = b := List.inj_on_of_nodup_map hnd haS hb hcontra.2
      rw [hab, hsb] at hcontra
      exact Bool.false_ne_true hcontra.1
    · rw [List.any_eq_true]
      exact ⟨b, (getAll_perm store).mem_iff.mpr hb, by simp [hsb]⟩

/-- Witness for C6: a two-item queue where the create for `donA` fails and the
one for `donB` succeeds — both calls are issued and only `donB` is removed. -/
theorem claim_C6_drain_failure_isolation_witness :
    (processOfflineQueue true [owAction (.don donA) 1, owAction (.don donB) 2]
        (fun body => if body.donorName == "Badr"
          then some { id := "srv-2", donorName := body.donorName,
                      pledgedAmount := body.pledgedAmount, paidAmount := body.paidAmount,
                      date := body.date, year := body.year, notes := body.notes }
          else none)
        (fun _ => none) 9 "u").2
      = ((offlineQueue.getAll [owAction (.don donA) 1, owAction (.don donB) 2]).map
          actionCalls).flatten ∧
    (processOfflineQueue true [owAction (.don donA) 1, owAction (.don donB) 2]
        (fun body => if body.donorName == "Badr"
          then some { id := "srv-2", donorName := body.donorName,
                      pledgedAmount := body.pledgedAmount, paidAmount := body.paidAmount,
                      date := body.date, year := body.year, notes := body.notes }
          else none)
        (fun _ => none) 9 "u").1
      = [owAction (.don donA) 1, owAction (.don donB) 2].filter
          (fun a => !(drainSuccess
            (fun body => if body.donorName == "Badr"
              then some { id := "srv-2", donorName := body.donorName,
                          pledgedAmount := body.pledgedAmount, paidAmount := body.paidAmount,
                          date := body.date, year := body.year, notes := body.notes }
              else none)
            (fun _ => none) a)) :=
  claim_C6_drain_failure_isolation [owAction (.don donA) 1, owAction (.don donB) 2]
    (fun body => if body.donorName == "Badr"
      then some { id := "srv-2", donorName := body.donorName,
                  pledgedAmount := body.pledgedAmount, paidAmount := body.paidAmount,
                  date := body.date, year := body.year, notes := body.notes }
      else none)
    (fun _ => none) 9 "u" (by decide) (by decide)

/-- C5: `refreshData` first seeds the state from the cached list for the
(user, year) scope key when one is present; if OFFLINE it stops there — no
network call, the seeded (possibly absent) value is the final answer, the
cache and error are untouched; if ONLINE and the fetch succeeds it issues the
two reads and overwrites both the state and the cache for that key with the
fresh results. -/
theorem claim_C5_read_path (uid : String) (year : Int) (online : Bool)
    (st0 : AppState) (cache : Cache)
    (netD : Option (List DonationRow)) (netE : Option (List ExpenseRow)) :
    (∀ l, lookupKey cache.dons (uid, year) = some l →
        (refreshData uid year online st0 cache netD netE).seeded.donations = l) ∧
    (∀ l, lookupKey cache.exps (uid, year) = some l →
        (refreshData uid year online st0 cache netD netE).seeded.expenses = l) ∧
    (online = false →
        (refreshData uid year online st0 cache netD netE).calls = [] ∧
        (refreshData uid year online st0 cache netD netE).final
          = (refreshData uid year online st0 cache netD netE).seeded ∧
        (refreshData uid year online st0 cache netD netE).cache = cache ∧
        (refreshData uid year online st0 cache netD netE).err = none) ∧
    (∀ dr er, online = true → netD = some dr → netE = some er →
        (refreshData uid year online st0 cache netD netE).calls
          = [.getDonations year, .getExpenses year] ∧
        (refreshData uid year online st0 cache netD netE).final
          = ⟨dr.map dbService.donationFromRow, er.map dbService.expenseFromRow⟩ ∧
        lookupKey (refreshData uid year online st0 cache netD netE).cache.dons (uid, year)
          = some (dr.map dbService.donationFromRow) ∧
        lookupKey (refreshData uid year online st0 cache netD netE).cache.exps (uid, year)
          = some (er.map dbService.expenseFromRow)) := by
  have hseed : (refreshData uid year online st0 cache netD netE).seeded
      = ⟨(lookupKey cache.dons (uid, year)).getD st0.donations,
         (lookupKey cache.exps (uid, year)).getD st0.expenses⟩ := by
    unfold refreshData
    cases online
    · rfl
    · cases netD <;> cases netE <;> rfl
  refine ⟨?_, ?_, ?_, ?_⟩
  · intro l hl
    rw [hseed]
    simp [hl]
  · intro l hl
    rw [hseed]
    simp [hl]
  · intro h
    subst h
    exact ⟨rfl, rfl, rfl, rfl⟩
  · intro dr er ho hd he
    subst ho; subst hd; subst he
    refine ⟨rfl, rfl, ?_, ?_⟩
    · show lookupKey (upsertKey cache.dons (uid, year) (dr.map dbService.donationFromRow))
          (uid, year) = _
      exact lookupKey_upsertKey cache.dons (uid, year) (dr.map dbService.donationFromRow)
    · show lookupKey (upsertKey cache.exps (uid, year) (er.map dbService.expenseFromRow))
          (uid, year) = _
      exact lookupKey_upsertKey cache.exps (uid, year) (er.map dbService.expenseFromRow)

/-- Concrete row/cache inputs for the C5 witness. -/
def rowD : DonationRow :=
  { id := "srv-9", user_id := "u1", donor_name := "Ali", pledged_amount := 100,
    paid_amount := 0, date := "2026-03-01", year := 2026, notes := none }

def cacheW : Cache :=
  { dons := [(("u1", 2026), [donA])], exps := [(("u1", 2026), [expC])] }

/-- Witness for C5 at concrete inputs: a cache hit seeds the state; an offline
call stops at the cache; an online call with a successful fetch overwrites
state and cache. -/
theorem claim_C5_read_path_witness :
    (refreshData "u1" 2026 true ⟨[], []⟩ cacheW (some [rowD]) (some [])).seeded.donations
      = [donA] ∧
    ((refreshData "u1" 2026 false ⟨[], []⟩ cacheW none none).calls = [] ∧
      (refreshData "u1" 2026 false ⟨[], []⟩ cacheW none none).final
        = (refreshData "u1" 2026 false ⟨[], []⟩ cacheW none none).seeded ∧
      (refreshData "u1" 2026 false ⟨[], []⟩ cacheW none none).cache = cacheW ∧
      (refreshData "u1" 2026 false ⟨[], []⟩ cacheW none none).err = none) ∧
    ((refreshData "u1" 2026 true ⟨[], []⟩ cacheW (some [rowD]) (some [])).calls
        = [.getDonations 2026, .getExpenses 2026] ∧
      (refreshData "u1" 2026 true ⟨[], []⟩ cacheW (some [rowD]) (some [])).final
        = ⟨[rowD].map dbService.donationFromRow, ([] : List ExpenseRow).map dbService.expenseFromRow⟩ ∧
      lookupKey (refreshData "u1" 2026 true ⟨[], []⟩ cacheW (some [rowD]) (some [])).cache.dons
          ("u1", 2026)
        = some ([rowD].map dbService.donationFromRow) ∧
      lookupKey (refreshData "u1" 2026 true ⟨[], []⟩ cacheW (some [rowD]) (some [])).cache.exps
          ("u1", 2026)
        = some (([] : List ExpenseRow).map dbService.expenseFromRow)) :=
  ⟨(claim_C5_read_path "u1" 2026 true ⟨[], []⟩ cacheW (some [rowD]) (some [])).1 [donA]
      (by decide),
   (claim_C5_read_path "u1" 2026 false ⟨[], []⟩ cacheW none none).2.2.1 rfl,
   (claim_C5_read_path "u1" 2026 true ⟨[], []⟩ cacheW (some [rowD]) (some [])).2.2.2 [rowD] []
      rfl rfl rfl⟩

end IftarCore
